import Mathlib

/-!
Shallow embedding of the cart-to-order and payment-settlement core of the
nexus_commerce backend (Django / DRF).

Conventions of the embedding:
* Monetary amounts are integer cents.  The source stores money in
  DecimalField columns with decimal_places=2, i.e. exact fixed-point values
  with two fractional digits, so cent arithmetic is lossless.
* Row ids are natural numbers (the source uses UUIDs; only identity and
  freshness matter, so we draw fresh ids from a counter in the store).
* Each request handler runs inside transaction.atomic, so a handler is a
  function from the store to Except: an error result models a rolled-back
  transaction and therefore carries no modified store.
-/

namespace Nexus

/-- Embeds products.models.Product (the fields the core reads and writes);
price is cents, stock_quantity is a PositiveIntegerField. -/
structure Product where
  id : Nat
  name : String
  price : Int
  stock_quantity : Nat
  deriving Repr, DecidableEq

/-- Embeds users.models.Address; the core needs only identity and owner. -/
structure Address where
  id : Nat
  user : Nat
  deriving Repr, DecidableEq

/-- Embeds carts.models.Cart. -/
structure Cart where
  id : Nat
  user : Nat
  is_active : Bool
  deriving Repr, DecidableEq

/-- Embeds carts.models.CartItem; price_at_time is the nullable price
snapshot (cents). -/
structure CartItem where
  id : Nat
  cart : Nat
  product : Nat
  quantity : Nat
  price_at_time : Option Int
  deriving Repr, DecidableEq

/-- Embeds orders.models.Order.OrderStatus. -/
inductive OrderStatus
  | pending
  | processing
  | shipped
  | delivered
  | canceled
  deriving Repr, DecidableEq

/-- Embeds orders.models.Order.PaymentStatus. -/
inductive OrderPaymentStatus
  | pending
  | paid
  | failed
  | refunded
  deriving Repr, DecidableEq

/-- Embeds orders.models.Order (total_amount in cents). -/
structure Order where
  id : Nat
  user : Nat
  shipping_address : Option Nat
  billing_address : Option Nat
  status : OrderStatus
  payment_status : OrderPaymentStatus
  total_amount : Int
  deriving Repr, DecidableEq

/-- Embeds orders.models.OrderItem (price in cents). -/
structure OrderItem where
  id : Nat
  order : Nat
  product : Nat
  quantity : Nat
  price : Int
  deriving Repr, DecidableEq

/-- Embeds orders.models.Payment.PaymentStatus. -/
inductive PayStatus
  | pending
  | succeeded
  | failed
  | refunded
  | processing
  | canceled
  deriving Repr, DecidableEq

/-- Embeds orders.models.Payment (amount in cents; transaction_id carries a
database-level unique constraint, and order is a OneToOneField). -/
structure Payment where
  id : Nat
  order : Nat
  amount : Int
  transaction_id : String
  status : PayStatus
  deriving Repr, DecidableEq

/-- The relational store the Django ORM mediates access to.  nextId is the
supply of fresh row ids. -/
structure Store where
  products : List Product
  addresses : List Address
  carts : List Cart
  cartItems : List CartItem
  orders : List Order
  orderItems : List OrderItem
  payments : List Payment
  nextId : Nat
  deriving Repr, DecidableEq

/-- Product.objects lookup by primary key. -/
def getProduct (s : Store) (pid : Nat) : Option Product :=
  s.products.find? (fun p => p.id == pid)

/-- Cart.objects.filter(user=user, is_active=True).first(). -/
def activeCart (s : Store) (u : Nat) : Option Cart :=
  s.carts.find? (fun c => c.user == u && c.is_active)

/-- cart.items.all(): the CartItem rows of one cart. -/
def itemsOf (s : Store) (cid : Nat) : List CartItem :=
  s.cartItems.filter (fun it => it.cart == cid)

/-- Address.objects.get(id=aid, user=u), as an Option. -/
def findAddress (s : Store) (aid u : Nat) : Option Address :=
  s.addresses.find? (fun a => a.id == aid && a.user == u)

/-- Order.objects lookup by primary key. -/
def getOrder (s : Store) (oid : Nat) : Option Order :=
  s.orders.find? (fun o => o.id == oid)

/-- CartItem.objects lookup by primary key. -/
def getCartItem (s : Store) (iid : Nat) : Option CartItem :=
  s.cartItems.find? (fun it => it.id == iid)

/-- The stock_quantity of the product with the given id (0 if absent; the
foreign key guarantees presence in every reachable state). -/
def stockOf (s : Store) (pid : Nat) : Nat :=
  ((getProduct s pid).map Product.stock_quantity).getD 0

/-- The price of the product with the given id (0 if absent). -/
def productPriceOf (s : Store) (pid : Nat) : Int :=
  ((getProduct s pid).map Product.price).getD 0

/-- The name of the product with the given id. -/
def productNameOf (s : Store) (pid : Nat) : String :=
  ((getProduct s pid).map Product.name).getD ""

/-- Embeds the Python fallback expression
item.price_at_time or item.product.price, which appears both in
carts.serializers.CartSerializer.get_cart_total and in
orders.views.OrderViewSet.create_from_cart.  Python truthiness makes both a
null snapshot and a zero snapshot fall back to the current product price:
Decimal zero is falsy. -/
def effectivePrice (snapshot : Option Int) (productPrice : Int) : Int :=
  match snapshot with
  | none => productPrice
  | some v => if v = 0 then productPrice else v

/-- The per-line unit price used by cart totals and by materialization. -/
def linePrice (s : Store) (it : CartItem) : Int :=
  effectivePrice it.price_at_time (productPriceOf s it.product)

/-- Embeds carts.serializers.CartSerializer.get_cart_total: the sum over the
cart lines of quantity times the effective price. -/
def get_cart_total (s : Store) (cid : Nat) : Int :=
  ((itemsOf s cid).map (fun it => (it.quantity : Int) * linePrice s it)).sum

/-- The total_amount computed in create_from_cart (orders/views.py line 98):
sum over cart lines of quantity times (price_at_time or product.price). -/
def cfc_total (s : Store) (its : List CartItem) : Int :=
  (its.map (fun it => (it.quantity : Int) * linePrice s it)).sum

/-- The insufficient-stock report built in create_from_cart (lines 86-90):
one entry (product name, available stock) per cart line whose quantity
exceeds the product's current stock; all violations are collected, not just
the first. -/
def insufficientReport (s : Store) (its : List CartItem) : List (String × Nat) :=
  its.filterMap (fun it =>
    if stockOf s it.product < it.quantity
    then some (productNameOf s it.product, stockOf s it.product)
    else none)

/-- The error outcomes of create_from_cart, one per 400 response in
orders/views.py.  brokenProductRef is a modelling artifact for a cart line
whose product row is missing; the CASCADE foreign key makes it unreachable. -/
inductive MatError
  | emptyCart
  | billingRequired
  | addressNotFound
  | insufficientStock (report : List (String × Nat))
  | brokenProductRef
  deriving Repr, DecidableEq

/-- Applies the stock decrements of create_from_cart (lines 122-123): for
each cart line, the referenced product's stock_quantity is decreased by the
line quantity via a relative store-level update. -/
def applyDecrements (ps : List Product) (its : List CartItem) : List Product :=
  its.foldl
    (fun acc it =>
      acc.map (fun p =>
        if p.id == it.product
        then { p with stock_quantity := p.stock_quantity - it.quantity }
        else p))
    ps

/-- Embeds orders.views.OrderViewSet.create_from_cart.  The checks appear in
source order: empty cart, billing address required, address resolution
(shipping defaults to billing), batch stock validation, then inside the same
atomic transaction the order row, the order items, the relative stock
decrements, cart deactivation and cart-line deletion. -/
def create_from_cart (s : Store) (u : Nat)
    (billing_address_id : Option Nat) (shipping_address_id : Option Nat) :
    Except MatError (Store × Order) :=
  match activeCart s u with
  | none => .error .emptyCart
  | some user_cart =>
    let its := itemsOf s user_cart.id
    if its.isEmpty then .error .emptyCart
    else
      match billing_address_id with
      | none => .error .billingRequired
      | some bid =>
        match findAddress s bid u with
        | none => .error .addressNotFound
        | some billing =>
          let shippingRes : Except MatError Address :=
            match shipping_address_id with
            | some sid =>
              match findAddress s sid u with
              | none => .error .addressNotFound
              | some a => .ok a
            | none => .ok billing
          match shippingRes with
          | .error e => .error e
          | .ok shipping =>
            if !(its.all (fun it => (getProduct s it.product).isSome))
            then .error .brokenProductRef
            else
              let insufficient := insufficientReport s its
              if !insufficient.isEmpty then
                .error (.insufficientStock insufficient)
              else
                let order : Order :=
                  { id := s.nextId
                    user := u
                    shipping_address := some shipping.id
                    billing_address := some billing.id
                    status := .pending
                    payment_status := .pending
                    total_amount := cfc_total s its }
                let newItems := its.enum.map (fun p =>
                  ({ id := s.nextId + 1 + p.1
                     order := order.id
                     product := p.2.product
                     quantity := p.2.quantity
                     price := linePrice s p.2 } : OrderItem))
                .ok
                  ({ s with
                      products := applyDecrements s.products its
                      carts := s.carts.map (fun c =>
                        if c.id == user_cart.id
                        then { c with is_active := false } else c)
                      cartItems := s.cartItems.filter
                        (fun it => !(it.cart == user_cart.id))
                      orders := order :: s.orders
                      orderItems := newItems ++ s.orderItems
                      nextId := s.nextId + 1 + its.length },
                   order)

/-- The error outcomes of the cart-item endpoints (carts/views.py and
carts/serializers.py). -/
inductive CartError
  | invalidQuantity
  | productNotFound
  | itemNotFound
  | insufficientStock
  | brokenProductRef
  deriving Repr, DecidableEq

/-- Embeds POST /carts/items: CartItemSerializer validation
(validate_quantity, then the stock check on the requested quantity) followed
by CartItemViewSet.perform_create (get_or_create of the active cart, then
increment-or-create of the line, re-checking stock against the summed
quantity in the increment branch).  Both branches snapshot price_at_time to
the product's current price.  The whole handler is transaction.atomic, so an
error leaves the store untouched. -/
def addOrIncrementLine (s : Store) (u : Nat) (pid : Nat) (q : Nat) :
    Except CartError Store :=
  if q < 1 then .error .invalidQuantity
  else
    match getProduct s pid with
    | none => .error .productNotFound
    | some product =>
      if product.stock_quantity < q then .error .insufficientStock
      else
        let cartAndStore : Cart × Store :=
          match activeCart s u with
          | some c => (c, s)
          | none =>
            let c : Cart := { id := s.nextId, user := u, is_active := true }
            (c, { s with carts := c :: s.carts, nextId := s.nextId + 1 })
        let user_cart := cartAndStore.1
        let s1 := cartAndStore.2
        match s1.cartItems.find? (fun it =>
            it.cart == user_cart.id && it.product == pid) with
        | some cart_item =>
          let new_quantity := cart_item.quantity + q
          if product.stock_quantity < new_quantity then
            .error .insufficientStock
          else
            .ok { s1 with
                   cartItems := s1.cartItems.map (fun it =>
                     if it.id == cart_item.id
                     then { it with
                             quantity := new_quantity
                             price_at_time := some product.price }
                     else it) }
        | none =>
          if product.stock_quantity < q then .error .insufficientStock
          else
            .ok { s1 with
                   cartItems :=
                     ({ id := s1.nextId
                        cart := user_cart.id
                        product := pid
                        quantity := q
                        price_at_time := some product.price } : CartItem)
                     :: s1.cartItems
                   nextId := s1.nextId + 1 }

/-- Embeds PATCH /carts/items/(id): CartItemSerializer.validate runs on the
fields present in the request body, so its stock check
(if product and quantity and quantity > product.stock_quantity) fires only
when the body carries a product field; productArg models that optional
field.  CartItemSerializer.update then overwrites the quantity and refreshes
price_at_time to the (possibly unchanged) product's current price. -/
def cartItemUpdate (s : Store) (iid : Nat) (q : Nat) (productArg : Option Nat) :
    Except CartError Store :=
  if q < 1 then .error .invalidQuantity
  else
    match getCartItem s iid with
    | none => .error .itemNotFound
    | some cart_item =>
      match productArg with
      | some pid =>
        match getProduct s pid with
        | none => .error .productNotFound
        | some product =>
          if product.stock_quantity < q then .error .insufficientStock
          else
            .ok { s with
                   cartItems := s.cartItems.map (fun it =>
                     if it.id == iid
                     then { it with
                             product := pid
                             quantity := q
                             price_at_time := some product.price }
                     else it) }
      | none =>
        match getProduct s cart_item.product with
        | none => .error .brokenProductRef
        | some product =>
          .ok { s with
                 cartItems := s.cartItems.map (fun it =>
                   if it.id == iid
                   then { it with
                           quantity := q
                           price_at_time := some product.price }
                   else it) }

/-- The setLineQuantity operation of the spec: a quantity-only partial
update of a cart line, i.e. cartItemUpdate with no product field in the
request body. -/
def setLineQuantity (s : Store) (iid : Nat) (q : Nat) : Except CartError Store :=
  cartItemUpdate s iid q none

/-- The error outcomes of POST /payments.  DRF validates the serializer
before PaymentViewSet.perform_create runs: a missing order pk, the unique
validator on transaction_id and the one-to-one validator on order all fail
during validation, so they precede the ownership and payment_status checks
of perform_create. -/
inductive PayError
  | orderNotFound
  | duplicateTransaction
  | orderAlreadyPaidFor
  | notOwner
  | orderNotPayable
  deriving Repr, DecidableEq

/-- Embeds POST /payments: serializer validation (order pk, unique
transaction_id, one-to-one order) followed by
orders.views.PaymentViewSet.perform_create: ownership check, the
payment_status == PENDING precondition, then atomically the Payment row with
status SUCCEEDED together with the order moving to payment_status PAID and
status PROCESSING. -/
def settle (s : Store) (requester : Nat) (orderId : Nat) (amount : Int)
    (tx : String) : Except PayError (Store × Payment) :=
  match getOrder s orderId with
  | none => .error .orderNotFound
  | some ord =>
    if s.payments.any (fun p => p.transaction_id == tx) then
      .error .duplicateTransaction
    else if s.payments.any (fun p => p.order == orderId) then
      .error .orderAlreadyPaidFor
    else if ord.user ≠ requester then .error .notOwner
    else if ord.payment_status ≠ .pending then .error .orderNotPayable
    else
      let pay : Payment :=
        { id := s.nextId
          order := orderId
          amount := amount
          transaction_id := tx
          status := .succeeded }
      .ok
        ({ s with
            payments := pay :: s.payments
            orders := s.orders.map (fun o =>
              if o.id == orderId
              then { o with payment_status := .paid, status := .processing }
              else o)
            nextId := s.nextId + 1 },
         pay)

/-- Outcome of one store-level commit of a relative stock decrement.  The
decrement in orders/views.py lines 122-123 is written with an F expression,
so the store applies stock_quantity := stock_quantity - quantity itself; the
CHECK constraint that PositiveIntegerField puts on the column rejects a
result below zero, which aborts (rolls back) the writing transaction with an
IntegrityError. -/
inductive TxnOutcome
  | committed
  | integrityError
  deriving Repr, DecidableEq

/-- One guarded relative decrement at the store: either the decremented
stock, or the unchanged stock together with the integrity failure. -/
def commitDecrement (stock : Int) (q : Nat) : Int × TxnOutcome :=
  if stock - (q : Int) < 0 then (stock, .integrityError)
  else (stock - (q : Int), .committed)

/-- The store serializes the commits of concurrent checkouts of one product;
a concurrent execution therefore acts on the stock as some sequence of
guarded relative decrements (the advisory reads of step 3 do not write). -/
def runCommits (stock : Int) (qs : List Nat) : Int × List TxnOutcome :=
  qs.foldl
    (fun acc q =>
      let r := commitDecrement acc.1 q
      (r.1, acc.2 ++ [r.2]))
    (stock, [])

/-- How a materialization request for one product terminates: the 201
success; the 400 InsufficientStock response raised by the advisory check of
step 3; or an IntegrityError propagating out of the commit, which
create_from_cart does not catch (there is no exception handler for it
anywhere in orders/views.py), so it surfaces as a generic server error. -/
inductive MatOutcome
  | success
  | insufficientStockResponse
  | integrityError
  deriving Repr, DecidableEq

/-- Lifts a commit outcome to the request outcome. -/
def matOutcomeOfTxn : TxnOutcome → MatOutcome
  | .committed => .success
  | .integrityError => .integrityError

/-- The fully-overlapped schedule of two checkouts of the same product: both
advisory checks (orders/views.py lines 86-95) read the initial stock before
either transaction commits its decrement, then the store serializes the two
commits.  Returns the final stock and the outcome of each request. -/
def raceTwoCheckouts (stock q1 q2 : Nat) : Int × MatOutcome × MatOutcome :=
  if stock < q1 then
    if stock < q2 then
      ((stock : Int), .insufficientStockResponse, .insufficientStockResponse)
    else
      ((commitDecrement (stock : Int) q2).1, .insufficientStockResponse,
        matOutcomeOfTxn (commitDecrement (stock : Int) q2).2)
  else
    if stock < q2 then
      ((commitDecrement (stock : Int) q1).1,
        matOutcomeOfTxn (commitDecrement (stock : Int) q1).2,
        .insufficientStockResponse)
    else
      ((commitDecrement (commitDecrement (stock : Int) q1).1 q2).1,
        matOutcomeOfTxn (commitDecrement (stock : Int) q1).2,
        matOutcomeOfTxn (commitDecrement (commitDecrement (stock : Int) q1).1 q2).2)

/-- The write operations of the exposed REST surface that can touch the
orders, payments, carts, cartItems or products tables.  The GraphQL schema
(nexus_commerce/schema.py) mounts only user and product mutations, so it is
not part of this surface. -/
inductive ApiOp
  | cartCreateFromCart (u : Nat) (billing shipping : Option Nat)
  | paymentCreate (u : Nat) (orderId : Nat) (amount : Int) (tx : String)
  | orderCreate (u : Nat) (shipping billing : Option Nat)
  | orderUpdate (u : Nat) (orderId : Nat) (shipping billing : Option Nat)
  | orderDestroy (u : Nat) (orderId : Nat)
  | cartItemCreate (u : Nat) (productId : Nat) (q : Nat)
  | cartItemPatch (u : Nat) (itemId : Nat) (q : Nat) (productArg : Option Nat)
  | cartItemDestroy (u : Nat) (itemId : Nat)
  | paymentMutate (u : Nat) (paymentId : Nat)
  deriving Repr, DecidableEq

/-- One step of the exposed interface: some s2 is a committed request, none
is a rejected one (4xx or 5xx), which by transaction.atomic leaves the store
unchanged.  Notes tying each branch to the source:
* orderCreate: plain POST /orders goes through OrderSerializer, whose
  read_only_fields include status, total_amount and payment_status; the
  model then hits the NOT NULL constraint on total_amount, so the request
  always fails.
* orderUpdate: the same read_only_fields mean an owner's PUT/PATCH can only
  change the user and address references, never status or payment_status.
* orderDestroy: deleting an order CASCADE-deletes its OrderItems and its
  Payment.
* paymentMutate: IsAuthenticatedAndOwner.has_object_permission finds no
  user, owner or cart attribute on a Payment and returns False, so every
  unsafe method on an existing payment is rejected with 403. -/
def apiStep (s : Store) (op : ApiOp) : Option Store :=
  match op with
  | .cartCreateFromCart u b sh =>
    ((create_from_cart s u b sh).map Prod.fst).toOption
  | .paymentCreate u oid amt tx =>
    ((settle s u oid amt tx).map Prod.fst).toOption
  | .orderCreate _ _ _ => none
  | .orderUpdate u oid sh b =>
    match getOrder s oid with
    | none => none
    | some ord =>
      if ord.user ≠ u then none
      else
        some { s with
                orders := s.orders.map (fun o =>
                  if o.id == oid
                  then { o with shipping_address := sh, billing_address := b }
                  else o) }
  | .orderDestroy u oid =>
    match getOrder s oid with
    | none => none
    | some ord =>
      if ord.user ≠ u then none
      else
        some { s with
                orders := s.orders.filter (fun o => !(o.id == oid))
                orderItems := s.orderItems.filter (fun oi => !(oi.order == oid))
                payments := s.payments.filter (fun p => !(p.order == oid)) }
  | .cartItemCreate u pid q => (addOrIncrementLine s u pid q).toOption
  | .cartItemPatch _ iid q pArg => (cartItemUpdate s iid q pArg).toOption
  | .cartItemDestroy _ iid =>
    match getCartItem s iid with
    | none => none
    | some _ =>
      some { s with cartItems := s.cartItems.filter (fun it => !(it.id == iid)) }
  | .paymentMutate _ _ => none

/-- An order is in PROCESSING only with a recorded SUCCEEDED payment. -/
def invProcessingPaid (s : Store) : Prop :=
  ∀ o ∈ s.orders, o.status = .processing →
    ∃ p ∈ s.payments, p.order = o.id ∧ p.status = .succeeded

instance (s : Store) : Decidable (invProcessingPaid s) := by
  unfold invProcessingPaid; infer_instance

/-! Concrete stores used to instantiate the theorems. -/

/-- Scenario A of the spec: user 7 owns address 10 and an active cart with
2 units of ProductX (id 1, stock 10, price 9.99) and 1 unit of ProductY
(id 2, stock 1, price 5.00), snapshots equal to the current prices. -/
def sampleA : Store :=
  { products := [⟨1, "ProductX", 999, 10⟩, ⟨2, "ProductY", 500, 1⟩]
    addresses := [⟨10, 7⟩]
    carts := [⟨20, 7, true⟩]
    cartItems := [⟨30, 20, 1, 2, some 999⟩, ⟨31, 20, 2, 1, some 500⟩]
    orders := []
    orderItems := []
    payments := []
    nextId := 100 }

/-- Scenario B of the spec: an active cart holding 5 units of ProductZ
while only 3 are in stock. -/
def sampleB : Store :=
  { products := [⟨1, "ProductZ", 700, 3⟩]
    addresses := [⟨10, 7⟩]
    carts := [⟨20, 7, true⟩]
    cartItems := [⟨30, 20, 1, 5, none⟩]
    orders := []
    orderItems := []
    payments := []
    nextId := 100 }

/-- A store with one payable order (id 50, owner 7, both statuses PENDING). -/
def samplePay : Store :=
  { products := []
    addresses := []
    carts := []
    cartItems := []
    orders := [⟨50, 7, none, none, .pending, .pending, 2498⟩]
    orderItems := []
    payments := []
    nextId := 100 }

/-- A store with an order whose payment_status is FAILED (not PENDING). -/
def sampleNotPayable : Store :=
  { products := []
    addresses := []
    carts := []
    cartItems := []
    orders := [⟨50, 7, none, none, .pending, .failed, 2498⟩]
    orderItems := []
    payments := []
    nextId := 100 }

/-- A store with order 50 already settled: payment_status PAID, status
PROCESSING, and its SUCCEEDED payment on file with transaction id t1. -/
def sampleSettled : Store :=
  { products := []
    addresses := []
    carts := []
    cartItems := []
    orders := [⟨50, 7, none, none, .processing, .paid, 2498⟩]
    orderItems := []
    payments := [⟨100, 50, 2498, "t1", .succeeded⟩]
    nextId := 101 }

/-- A store with one product (stock 5, price 15.00) and an active cart of
user 7 holding 2 units of it with an older snapshot of 14.00. -/
def sampleCart : Store :=
  { products := [⟨1, "P", 1500, 5⟩]
    addresses := []
    carts := [⟨20, 7, true⟩]
    cartItems := [⟨30, 20, 1, 2, some 1400⟩]
    orders := []
    orderItems := []
    payments := []
    nextId := 100 }

/-- A store whose single cart line carries a non-null snapshot equal to
zero cents, while the product's current price is 7.77. -/
def sampleZero : Store :=
  { products := [⟨1, "P", 777, 5⟩]
    addresses := []
    carts := [⟨20, 7, true⟩]
    cartItems := [⟨30, 20, 1, 3, some 0⟩]
    orders := []
    orderItems := []
    payments := []
    nextId := 100 }

/-- A store where user 7 has no cart at all. -/
def sampleNoCart : Store :=
  { products := []
    addresses := [⟨10, 7⟩]
    carts := []
    cartItems := []
    orders := []
    orderItems := []
    payments := []
    nextId := 100 }

/-- A store where user 7 has an active cart with zero lines. -/
def sampleEmptyCart : Store :=
  { products := []
    addresses := [⟨10, 7⟩]
    carts := [⟨20, 7, true⟩]
    cartItems := []
    orders := []
    orderItems := []
    payments := []
    nextId := 100 }

/-- The total quantity the cart lines of a list request of one product. -/
def qtyOf (its : List CartItem) (pid : Nat) : Nat :=
  ((its.filter (fun it => it.product == pid)).map CartItem.quantity).sum

/-- The stock of one product in a raw product table. -/
def listStock (ps : List Product) (pid : Nat) : Nat :=
  ((ps.find? (fun p => p.id == pid)).map Product.stock_quantity).getD 0

/-! Helper lemmas shared by the claim theorems. -/

theorem find?_map_preserving {α : Type} (l : List α) (f : α → α) (p : α → Bool)
    (h : ∀ a, p (f a) = p a) :
    (l.map f).find? p = (l.find? p).map f := by
  induction l with
  | nil => rfl
  | cons a l ih =>
    by_cases hp : p a = true
    · rw [List.map_cons, List.find?_cons_of_pos _ (by rw [h]; exact hp),
        List.find?_cons_of_pos _ hp]
      rfl
    · rw [List.map_cons, List.find?_cons_of_neg _ (by rw [h]; exact hp),
        List.find?_cons_of_neg _ hp, ih]

theorem qtyOf_cons (it : CartItem) (rest : List CartItem) (pid : Nat) :
    qtyOf (it :: rest) pid =
      (if it.product == pid then it.quantity else 0) + qtyOf rest pid := by
  by_cases h : it.product == pid <;>
    simp [qtyOf, List.filter_cons, h]

theorem listStock_applyDecrements (its : List CartItem) (ps : List Product)
    (pid : Nat) :
    listStock (applyDecrements ps its) pid = listStock ps pid - qtyOf its pid := by
  induction its generalizing ps with
  | nil => simp [applyDecrements, qtyOf, List.filter_nil]
  | cons it rest ih =>
    have hstep : applyDecrements ps (it :: rest) =
        applyDecrements
          (ps.map (fun p =>
            if p.id == it.product
            then { p with stock_quantity := p.stock_quantity - it.quantity }
            else p)) rest := rfl
    have hf : ∀ p : Product,
        ((if p.id == it.product
          then { p with stock_quantity := p.stock_quantity - it.quantity }
          else p).id == pid) = (p.id == pid) := by
      intro p; by_cases h : p.id == it.product <;> simp [h]
    rw [hstep, ih, qtyOf_cons]
    rw [show listStock
          (ps.map (fun p =>
            if p.id == it.product
            then { p with stock_quantity := p.stock_quantity - it.quantity }
            else p)) pid
        = (((ps.find? (fun p => p.id == pid)).map (fun p =>
            if p.id == it.product
            then { p with stock_quantity := p.stock_quantity - it.quantity }
            else p)).map Product.stock_quantity).getD 0 from by
      rw [listStock, find?_map_preserving _ _ _ hf]]
    cases hfind : ps.find? (fun p => p.id == pid) with
    | none => simp [listStock, hfind]
    | some p =>
      have hp := List.find?_some hfind
      have hpid : p.id = pid := by simpa using hp
      by_cases hmatch : p.id = it.product
      · have hprodpid : (it.product == pid) = true := by
          simp [← hmatch, hpid]
        simp [listStock, hfind, hmatch, hprodpid, hpid]
        omega
      · have hprodpid : (it.product == pid) = false := by
          simp only [beq_eq_false_iff_ne, ne_eq]
          intro hcontra
          exact hmatch (by omega)
        simp [listStock, hfind, hmatch, hprodpid]

theorem enum_map_pair {α β : Type} (l : List α) (f : α → β) :
    (l.enum.map (fun p => f p.2)) = l.map f := by
  rw [show (fun p : Nat × α => f p.2) = f ∘ Prod.snd from rfl,
    ← List.map_map, List.enum_map_snd]

/-- Master success characterization of create_from_cart, shared by the
claim theorems about materialization. -/
theorem cfc_success_spec (s : Store) (u bid : Nat) (c : Cart) (baddr : Address)
    (hc : activeCart s u = some c)
    (hne : itemsOf s c.id ≠ [])
    (hb : findAddress s bid u = some baddr)
    (hfk : ∀ it ∈ itemsOf s c.id, (getProduct s it.product).isSome = true)
    (hstk : ∀ it ∈ itemsOf s c.id, it.quantity ≤ stockOf s it.product) :
    ∃ s2 ord, create_from_cart s u (some bid) none = .ok (s2, ord) ∧
      ord.total_amount = cfc_total s (itemsOf s c.id) ∧
      ord.status = .pending ∧
      ord.payment_status = .pending ∧
      ord.billing_address = some baddr.id ∧
      ord.shipping_address = some baddr.id ∧
      s2.orders = ord :: s.orders ∧
      (∃ newItems, s2.orderItems = newItems ++ s.orderItems ∧
        newItems.map (fun oi => (oi.product, oi.quantity, oi.price)) =
          (itemsOf s c.id).map (fun it => (it.product, it.quantity, linePrice s it))) ∧
      (∀ pid, stockOf s2 pid = stockOf s pid - qtyOf (itemsOf s c.id) pid) ∧
      (∀ c2 ∈ s2.carts, c2.id = c.id → c2.is_active = false) ∧
      itemsOf s2 c.id = [] ∧
      s2.payments = s.payments := by
  have hisEmpty : (itemsOf s c.id).isEmpty = false := List.isEmpty_eq_false.mpr hne
  have hall : (itemsOf s c.id).all (fun it => (getProduct s it.product).isSome)
      = true := List.all_eq_true.mpr hfk
  have hins : insufficientReport s (itemsOf s c.id) = [] := by
    rw [insufficientReport, List.filterMap_eq_nil_iff]
    intro it hit
    have h := hstk it hit
    rw [if_neg (by omega)]
  have heq : create_from_cart s u (some bid) none = Except.ok
      ({ s with
          products := applyDecrements s.products (itemsOf s c.id)
          carts := s.carts.map (fun c0 =>
            if c0.id == c.id then { c0 with is_active := false } else c0)
          cartItems := s.cartItems.filter (fun it => !(it.cart == c.id))
          orders :=
            ({ id := s.nextId
               user := u
               shipping_address := some baddr.id
               billing_address := some baddr.id
               status := .pending
               payment_status := .pending
               total_amount := cfc_total s (itemsOf s c.id) } : Order)
            :: s.orders
          orderItems := (itemsOf s c.id).enum.map (fun p =>
            ({ id := s.nextId + 1 + p.1
               order := s.nextId
               product := p.2.product
               quantity := p.2.quantity
               price := linePrice s p.2 } : OrderItem)) ++ s.orderItems
          nextId := s.nextId + 1 + (itemsOf s c.id).length },
       { id := s.nextId
         user := u
         shipping_address := some baddr.id
         billing_address := some baddr.id
         status := .pending
         payment_status := .pending
         total_amount := cfc_total s (itemsOf s c.id) }) := by
    simp only [create_from_cart, hc, hisEmpty, hb, hall, hins,
      Bool.false_eq_true, if_false, List.isEmpty_nil, Bool.not_true,
      Bool.not_false, if_true]
  refine ⟨_, _, heq, rfl, rfl, rfl, rfl, rfl, rfl, ?_, ?_, ?_, ?_, rfl⟩
  · refine ⟨_, rfl, ?_⟩
    rw [List.map_map]
    exact enum_map_pair (itemsOf s c.id)
      (fun it => (it.product, it.quantity, linePrice s it))
  · intro pid
    exact listStock_applyDecrements _ _ _
  · intro c2 h2 hid
    rw [List.mem_map] at h2
    obtain ⟨c0, hc0, rfl⟩ := h2
    cases h : (c0.id == c.id) with
    | true => simp [h]
    | false =>
      rw [if_neg (by simp [h])] at hid ⊢
      exact absurd hid (by simpa using h)
  · apply List.filter_eq_nil_iff.mpr
    intro a ha
    have h2 := (List.mem_filter.mp ha).2
    simp at h2 ⊢
    exact h2

/-- C1: for every user with an active cart whose lines all fit in stock and
a valid billing address, create_from_cart creates an Order whose
total_amount is the sum over cart lines of quantity times (price snapshot if
present else current product price), creates one OrderLine per cart line at
that same per-line price, decrements each referenced product's stock by the
line quantity, deactivates the cart and deletes its lines. -/
theorem claim_C1_materialize_from_cart (s : Store) (u bid : Nat) (c : Cart)
    (baddr : Address)
    (hc : activeCart s u = some c)
    (hne : itemsOf s c.id ≠ [])
    (hb : findAddress s bid u = some baddr)
    (hfk : ∀ it ∈ itemsOf s c.id, (getProduct s it.product).isSome = true)
    (hstk : ∀ it ∈ itemsOf s c.id, it.quantity ≤ stockOf s it.product) :
    ∃ s2 ord, create_from_cart s u (some bid) none = .ok (s2, ord) ∧
      ord.total_amount =
        ((itemsOf s c.id).map
          (fun it => (it.quantity : Int) * linePrice s it)).sum ∧
      ord.status = .pending ∧
      ord.payment_status = .pending ∧
      (∃ newItems, s2.orderItems = newItems ++ s.orderItems ∧
        newItems.map (fun oi => (oi.product, oi.quantity, oi.price)) =
          (itemsOf s c.id).map
            (fun it => (it.product, it.quantity, linePrice s it))) ∧
      (∀ pid, stockOf s2 pid = stockOf s pid - qtyOf (itemsOf s c.id) pid) ∧
      (∀ c2 ∈ s2.carts, c2.id = c.id → c2.is_active = false) ∧
      itemsOf s2 c.id = [] := by
  obtain ⟨s2, ord, h1, h2, h3, h4, _, _, _, h8, h9, h10, h11, _⟩ :=
    cfc_success_spec s u bid c baddr hc hne hb hfk hstk
  exact ⟨s2, ord, h1, by rw [h2]; rfl, h3, h4, h8, h9, h10, h11⟩

/-- Witness for C1: scenario A instantiated (user 7, billing address 10). -/
theorem claim_C1_witness :
    ∃ s2 ord, create_from_cart sampleA 7 (some 10) none = .ok (s2, ord) ∧
      ord.total_amount =
        ((itemsOf sampleA 20).map
          (fun it => (it.quantity : Int) * linePrice sampleA it)).sum ∧
      ord.status = .pending ∧
      ord.payment_status = .pending ∧
      (∃ newItems, s2.orderItems = newItems ++ sampleA.orderItems ∧
        newItems.map (fun oi => (oi.product, oi.quantity, oi.price)) =
          (itemsOf sampleA 20).map
            (fun it => (it.product, it.quantity, linePrice sampleA it))) ∧
      (∀ pid, stockOf s2 pid = stockOf sampleA pid - qtyOf (itemsOf sampleA 20) pid) ∧
      (∀ c2 ∈ s2.carts, c2.id = 20 → c2.is_active = false) ∧
      itemsOf s2 20 = [] :=
  claim_C1_materialize_from_cart sampleA 7 10 ⟨20, 7, true⟩ ⟨10, 7⟩
    (by decide) (by decide) (by decide) (by decide) (by decide)

/-- Scenario A in literal numbers: total 24.98, ProductX stock 8, ProductY
stock 0, the cart deactivated and emptied. -/
theorem sampleA_values :
    (create_from_cart sampleA 7 (some 10) none).map
        (fun p => (p.2.total_amount, stockOf p.1 1, stockOf p.1 2,
          activeCart p.1 7, itemsOf p.1 20))
      = .ok (2498, 8, 0, none, []) := by rfl

/-- Error shape of create_from_cart when some line exceeds stock. -/
theorem cfc_insufficient_spec (s : Store) (u bid : Nat) (c : Cart)
    (baddr : Address)
    (hc : activeCart s u = some c)
    (hne : itemsOf s c.id ≠ [])
    (hb : findAddress s bid u = some baddr)
    (hfk : ∀ it ∈ itemsOf s c.id, (getProduct s it.product).isSome = true)
    (hbad : insufficientReport s (itemsOf s c.id) ≠ []) :
    create_from_cart s u (some bid) none =
      .error (.insufficientStock (insufficientReport s (itemsOf s c.id))) := by
  have hisEmpty : (itemsOf s c.id).isEmpty = false := List.isEmpty_eq_false.mpr hne
  have hall : (itemsOf s c.id).all (fun it => (getProduct s it.product).isSome)
      = true := List.all_eq_true.mpr hfk
  have hrep : (insufficientReport s (itemsOf s c.id)).isEmpty = false :=
    List.isEmpty_eq_false.mpr hbad
  simp only [create_from_cart, hc, hisEmpty, hb, hall, hrep,
    Bool.false_eq_true, if_false, Bool.not_true, Bool.not_false, if_true]

/-- C2: when at least one cart line asks for more than the product's current
stock, create_from_cart fails with the insufficient-stock error whose report
names exactly the offending products with their available quantities (all of
them, not only the first); the error result models a rolled-back
transaction, so no order row, stock decrement or cart change survives. -/
theorem claim_C2_insufficient_stock_batch (s : Store) (u bid : Nat) (c : Cart)
    (baddr : Address)
    (hc : activeCart s u = some c)
    (hne : itemsOf s c.id ≠ [])
    (hb : findAddress s bid u = some baddr)
    (hfk : ∀ it ∈ itemsOf s c.id, (getProduct s it.product).isSome = true)
    (hbad : ∃ it ∈ itemsOf s c.id, stockOf s it.product < it.quantity) :
    create_from_cart s u (some bid) none =
      .error (.insufficientStock (insufficientReport s (itemsOf s c.id))) ∧
    insufficientReport s (itemsOf s c.id) ≠ [] ∧
    (∀ nm av, (nm, av) ∈ insufficientReport s (itemsOf s c.id) ↔
      ∃ it ∈ itemsOf s c.id, stockOf s it.product < it.quantity ∧
        productNameOf s it.product = nm ∧ stockOf s it.product = av) := by
  obtain ⟨it0, hit0, hlt0⟩ := hbad
  have hmem : (productNameOf s it0.product, stockOf s it0.product) ∈
      insufficientReport s (itemsOf s c.id) := by
    rw [insufficientReport, List.mem_filterMap]
    exact ⟨it0, hit0, by rw [if_pos hlt0]⟩
  have hnonempty : insufficientReport s (itemsOf s c.id) ≠ [] :=
    List.ne_nil_of_mem hmem
  refine ⟨cfc_insufficient_spec s u bid c baddr hc hne hb hfk hnonempty,
    hnonempty, ?_⟩
  intro nm av
  rw [insufficientReport, List.mem_filterMap]
  constructor
  · rintro ⟨it, hit, hf⟩
    by_cases h : stockOf s it.product < it.quantity
    · rw [if_pos h] at hf
      injection hf with hf
      exact ⟨it, hit, h, congrArg Prod.fst hf, congrArg Prod.snd hf⟩
    · rw [if_neg h] at hf
      cases hf
  · rintro ⟨it, hit, hlt, hnm, hav⟩
    exact ⟨it, hit, by rw [if_pos hlt, hnm, hav]⟩

/-- Witness for C2: scenario B (5 units of ProductZ, stock 3) yields the
error naming ProductZ with available quantity 3. -/
theorem claim_C2_witness :
    create_from_cart sampleB 7 (some 10) none =
      .error (.insufficientStock (insufficientReport sampleB (itemsOf sampleB 20))) ∧
    insufficientReport sampleB (itemsOf sampleB 20) ≠ [] ∧
    (∀ nm av, (nm, av) ∈ insufficientReport sampleB (itemsOf sampleB 20) ↔
      ∃ it ∈ itemsOf sampleB 20, stockOf sampleB it.product < it.quantity ∧
        productNameOf sampleB it.product = nm ∧ stockOf sampleB it.product = av) :=
  claim_C2_insufficient_stock_batch sampleB 7 10 ⟨20, 7, true⟩ ⟨10, 7⟩
    (by decide) (by decide) (by decide) (by decide)
    ⟨⟨30, 20, 1, 5, none⟩, by decide, by decide⟩

/-- Scenario B in literal values: the report is exactly ProductZ with 3. -/
theorem sampleB_values :
    create_from_cart sampleB 7 (some 10) none =
      .error (.insufficientStock [("ProductZ", 3)]) ∧
    stockOf sampleB 1 = 3 := by
  constructor
  · rfl
  · rfl

/-- Error shape of create_from_cart with no active cart. -/
theorem cfc_no_cart (s : Store) (u : Nat) (b sh : Option Nat)
    (h : activeCart s u = none) :
    create_from_cart s u b sh = .error .emptyCart := by
  simp only [create_from_cart, h]

/-- Error shape of create_from_cart with an active cart of zero lines. -/
theorem cfc_zero_lines (s : Store) (u : Nat) (b sh : Option Nat) (c : Cart)
    (hc : activeCart s u = some c) (he : itemsOf s c.id = []) :
    create_from_cart s u b sh = .error .emptyCart := by
  simp only [create_from_cart, hc, he, List.isEmpty_nil, if_true]

/-- Error shape of create_from_cart with no billing address supplied. -/
theorem cfc_billing_required (s : Store) (u : Nat) (sh : Option Nat) (c : Cart)
    (hc : activeCart s u = some c) (hne : itemsOf s c.id ≠ []) :
    create_from_cart s u none sh = .error .billingRequired := by
  have hisEmpty : (itemsOf s c.id).isEmpty = false := List.isEmpty_eq_false.mpr hne
  simp only [create_from_cart, hc, hisEmpty, Bool.false_eq_true, if_false]

/-- Error shape of create_from_cart when the billing address does not
resolve for the requesting user. -/
theorem cfc_billing_not_found (s : Store) (u bid : Nat) (sh : Option Nat)
    (c : Cart)
    (hc : activeCart s u = some c) (hne : itemsOf s c.id ≠ [])
    (hb : findAddress s bid u = none) :
    create_from_cart s u (some bid) sh = .error .addressNotFound := by
  have hisEmpty : (itemsOf s c.id).isEmpty = false := List.isEmpty_eq_false.mpr hne
  simp only [create_from_cart, hc, hisEmpty, hb, Bool.false_eq_true, if_false]

/-- Error shape of create_from_cart when the supplied shipping address does
not resolve for the requesting user. -/
theorem cfc_shipping_not_found (s : Store) (u bid sid : Nat) (c : Cart)
    (baddr : Address)
    (hc : activeCart s u = some c) (hne : itemsOf s c.id ≠ [])
    (hb : findAddress s bid u = some baddr)
    (hs : findAddress s sid u = none) :
    create_from_cart s u (some bid) (some sid) = .error .addressNotFound := by
  have hisEmpty : (itemsOf s c.id).isEmpty = false := List.isEmpty_eq_false.mpr hne
  simp only [create_from_cart, hc, hisEmpty, hb, hs, Bool.false_eq_true, if_false]

/-- C8: create_from_cart fails with the empty-cart error when the user has
no active cart or the active cart has zero lines; the billing address is
required; a billing or shipping address that does not resolve for the
requesting user fails with the address error; an omitted shipping address
defaults to the billing address.  Every failure is an error result, i.e. a
rolled-back transaction creating no order. -/
theorem claim_C8_empty_cart_and_addresses :
    ∀ (s : Store) (u : Nat),
      (∀ b sh, activeCart s u = none →
        create_from_cart s u b sh = .error .emptyCart) ∧
      (∀ b sh c, activeCart s u = some c → itemsOf s c.id = [] →
        create_from_cart s u b sh = .error .emptyCart) ∧
      (∀ sh c, activeCart s u = some c → itemsOf s c.id ≠ [] →
        create_from_cart s u none sh = .error .billingRequired) ∧
      (∀ bid sh c, activeCart s u = some c → itemsOf s c.id ≠ [] →
        findAddress s bid u = none →
        create_from_cart s u (some bid) sh = .error .addressNotFound) ∧
      (∀ bid sid c baddr, activeCart s u = some c → itemsOf s c.id ≠ [] →
        findAddress s bid u = some baddr → findAddress s sid u = none →
        create_from_cart s u (some bid) (some sid) = .error .addressNotFound) ∧
      (∀ bid c baddr, activeCart s u = some c → itemsOf s c.id ≠ [] →
        findAddress s bid u = some baddr →
        (∀ it ∈ itemsOf s c.id, (getProduct s it.product).isSome = true) →
        (∀ it ∈ itemsOf s c.id, it.quantity ≤ stockOf s it.product) →
        ∃ s2 ord, create_from_cart s u (some bid) none = .ok (s2, ord) ∧
          ord.shipping_address = some baddr.id ∧
          ord.billing_address = some baddr.id) := by
  intro s u
  refine ⟨?_, ?_, ?_, ?_, ?_, ?_⟩
  · intro b sh h; exact cfc_no_cart s u b sh h
  · intro b sh c hc he; exact cfc_zero_lines s u b sh c hc he
  · intro sh c hc hne; exact cfc_billing_required s u sh c hc hne
  · intro bid sh c hc hne hb; exact cfc_billing_not_found s u bid sh c hc hne hb
  · intro bid sid c baddr hc hne hb hs
    exact cfc_shipping_not_found s u bid sid c baddr hc hne hb hs
  · intro bid c baddr hc hne hb hfk hstk
    obtain ⟨s2, ord, h1, _, _, _, h5, h6, _⟩ :=
      cfc_success_spec s u bid c baddr hc hne hb hfk hstk
    exact ⟨s2, ord, h1, h6, h5⟩

/-- Witness for C8: each failure branch at a concrete store, and the
shipping default at scenario A. -/
theorem claim_C8_witness :
    create_from_cart sampleNoCart 7 (some 10) none = .error .emptyCart ∧
    create_from_cart sampleEmptyCart 7 (some 10) none = .error .emptyCart ∧
    create_from_cart sampleA 7 none none = .error .billingRequired ∧
    create_from_cart sampleA 7 (some 99) none = .error .addressNotFound ∧
    create_from_cart sampleA 7 (some 10) (some 99) = .error .addressNotFound ∧
    (∃ s2 ord, create_from_cart sampleA 7 (some 10) none = .ok (s2, ord) ∧
      ord.shipping_address = some 10 ∧ ord.billing_address = some 10) :=
  ⟨(claim_C8_empty_cart_and_addresses sampleNoCart 7).1 (some 10) none
      (by decide),
   (claim_C8_empty_cart_and_addresses sampleEmptyCart 7).2.1 (some 10) none
      ⟨20, 7, true⟩ (by decide) (by decide),
   (claim_C8_empty_cart_and_addresses sampleA 7).2.2.1 none
      ⟨20, 7, true⟩ (by decide) (by decide),
   (claim_C8_empty_cart_and_addresses sampleA 7).2.2.2.1 99 none
      ⟨20, 7, true⟩ (by decide) (by decide) (by decide),
   (claim_C8_empty_cart_and_addresses sampleA 7).2.2.2.2.1 10 99
      ⟨20, 7, true⟩ ⟨10, 7⟩ (by decide) (by decide) (by decide) (by decide),
   (claim_C8_empty_cart_and_addresses sampleA 7).2.2.2.2.2 10
      ⟨20, 7, true⟩ ⟨10, 7⟩ (by decide) (by decide) (by decide) (by decide)
      (by decide)⟩

/-- Success shape of settle, shared by the payment claim theorems. -/
theorem settle_success_spec (s : Store) (u oid : Nat) (amt : Int) (tx : String)
    (ord : Order)
    (hord : getOrder s oid = some ord)
    (hfresh : ∀ p ∈ s.payments, p.transaction_id ≠ tx)
    (hone : ∀ p ∈ s.payments, p.order ≠ oid)
    (hown : ord.user = u)
    (hpend : ord.payment_status = .pending) :
    settle s u oid amt tx = .ok
      ({ s with
          payments :=
            ({ id := s.nextId
               order := oid
               amount := amt
               transaction_id := tx
               status := .succeeded } : Payment) :: s.payments
          orders := s.orders.map (fun o =>
            if o.id == oid
            then { o with payment_status := .paid, status := .processing }
            else o)
          nextId := s.nextId + 1 },
       { id := s.nextId
         order := oid
         amount := amt
         transaction_id := tx
         status := .succeeded }) := by
  have hfresh2 : s.payments.any (fun p => p.transaction_id == tx) = false := by
    rw [List.any_eq_false]
    intro p hp
    simpa using hfresh p hp
  have hone2 : s.payments.any (fun p => p.order == oid) = false := by
    rw [List.any_eq_false]
    intro p hp
    simpa using hone p hp
  simp only [settle, hord, hfresh2, hone2, hown, hpend, Bool.false_eq_true,
    if_false, ne_eq, not_true_eq_false, ite_false]

/-- The order row after a successful settle: the target order with
payment_status PAID and status PROCESSING. -/
theorem getOrder_after_settle (s : Store) (oid : Nat) (ord : Order)
    (hord : getOrder s oid = some ord) :
    (s.orders.map (fun o =>
      if o.id == oid
      then { o with payment_status := .paid, status := .processing }
      else o)).find? (fun o => o.id == oid) =
    some { ord with payment_status := .paid, status := .processing } := by
  rw [getOrder] at hord
  have hpres : ∀ o : Order,
      ((if o.id == oid then { o with payment_status := OrderPaymentStatus.paid, status := OrderStatus.processing } else o).id == oid) = (o.id == oid) := by
    intro o; by_cases h : o.id == oid <;> simp [h]
  rw [find?_map_preserving _ _ _ hpres, hord]
  have hpred := List.find?_some hord
  simp only [Option.map_some']
  rw [if_pos hpred]

/-- Counterexample to C3 as stated: order 50 is already settled (its
payment_status PAID is not PENDING, and its SUCCEEDED payment with
transaction id t1 is on file), yet a fresh settle request with transaction
id t2 fails with the serializer's one-to-one uniqueness error on the order
field, not with OrderNotPayable. -/
theorem claim_C3_counterexample :
    getOrder sampleSettled 50 =
      some ⟨50, 7, none, none, .processing, .paid, 2498⟩ ∧
    OrderPaymentStatus.paid ≠ OrderPaymentStatus.pending ∧
    settle sampleSettled 7 50 2498 "t2" = .error .orderAlreadyPaidFor ∧
    PayError.orderAlreadyPaidFor ≠ PayError.orderNotPayable :=
  ⟨by decide, by decide, rfl, by decide⟩

/-- C3 amended: for an order owned by the requester whose payment_status is
PENDING, provided the submitted transaction id is fresh and the order has
no payment row yet, settle creates a SUCCEEDED payment and in the same
transaction sets the order's payment_status to PAID and its status to
PROCESSING.  For an order whose payment_status is not PENDING, settle
always fails and creates no payment, but the error is OrderNotPayable only
when the request passes the serializer's unique validators (fresh
transaction id, no payment row for the order), which DRF runs before
perform_create; an already-settled order holding its payment fails with the
uniqueness error instead. -/
theorem claim_C3_settle_amended (s : Store) (u oid : Nat) (amt : Int)
    (tx : String) (ord : Order)
    (hord : getOrder s oid = some ord)
    (hown : ord.user = u) :
    ((∀ p ∈ s.payments, p.transaction_id ≠ tx) →
     (∀ p ∈ s.payments, p.order ≠ oid) →
     ord.payment_status = .pending →
      ∃ s2 pay, settle s u oid amt tx = .ok (s2, pay) ∧
        pay.status = .succeeded ∧ pay.order = oid ∧ pay.amount = amt ∧
        pay.transaction_id = tx ∧ s2.payments = pay :: s.payments ∧
        getOrder s2 oid =
          some { ord with payment_status := .paid, status := .processing }) ∧
    (ord.payment_status ≠ .pending →
      (∃ e, settle s u oid amt tx = .error e) ∧
      ((∀ p ∈ s.payments, p.transaction_id ≠ tx) →
       (∀ p ∈ s.payments, p.order ≠ oid) →
        settle s u oid amt tx = .error .orderNotPayable)) := by
  have huser : ¬ ord.user ≠ u := by simp [hown]
  constructor
  · intro hfresh hone hpend
    refine ⟨_, _, settle_success_spec s u oid amt tx ord hord hfresh hone
      hown hpend, rfl, rfl, rfl, rfl, rfl, ?_⟩
    exact getOrder_after_settle s oid ord hord
  · intro hnp
    constructor
    · by_cases hdup : s.payments.any (fun p => p.transaction_id == tx) = true
      · refine ⟨.duplicateTransaction, ?_⟩
        simp only [settle, hord]
        rw [if_pos hdup]
      · by_cases hpaid : s.payments.any (fun p => p.order == oid) = true
        · refine ⟨.orderAlreadyPaidFor, ?_⟩
          simp only [settle, hord]
          rw [if_neg hdup, if_pos hpaid]
        · refine ⟨.orderNotPayable, ?_⟩
          simp only [settle, hord]
          rw [if_neg hdup, if_neg hpaid, if_neg huser, if_pos hnp]
    · intro hfresh hone
      have hdup : ¬ (s.payments.any (fun p => p.transaction_id == tx) = true) := by
        rw [Bool.not_eq_true, List.any_eq_false]
        intro p hp
        simpa using hfresh p hp
      have hpaid : ¬ (s.payments.any (fun p => p.order == oid) = true) := by
        rw [Bool.not_eq_true, List.any_eq_false]
        intro p hp
        simpa using hone p hp
      simp only [settle, hord]
      rw [if_neg hdup, if_neg hpaid, if_neg huser, if_pos hnp]

/-- Witness for C3 amended: a pending order settles to PAID and PROCESSING;
an order with payment_status FAILED and no payment row is rejected as not
payable; the already-settled order fails with some validation error. -/
theorem claim_C3_witness :
    (∃ s2 pay, settle samplePay 7 50 2498 "t1" = .ok (s2, pay) ∧
      pay.status = .succeeded ∧ pay.order = 50 ∧ pay.amount = 2498 ∧
      pay.transaction_id = "t1" ∧ s2.payments = pay :: samplePay.payments ∧
      getOrder s2 50 =
        some ⟨50, 7, none, none, .processing, .paid, 2498⟩) ∧
    settle sampleNotPayable 7 50 2498 "t1" = .error .orderNotPayable ∧
    (∃ e, settle sampleSettled 7 50 2498 "t2" = .error e) :=
  ⟨(claim_C3_settle_amended samplePay 7 50 2498 "t1"
      ⟨50, 7, none, none, .pending, .pending, 2498⟩
      (by decide) (by decide)).1 (by decide) (by decide) (by decide),
   ((claim_C3_settle_amended sampleNotPayable 7 50 2498 "t1"
      ⟨50, 7, none, none, .pending, .failed, 2498⟩
      (by decide) (by decide)).2 (by decide)).2 (by decide) (by decide),
   ((claim_C3_settle_amended sampleSettled 7 50 2498 "t2"
      ⟨50, 7, none, none, .processing, .paid, 2498⟩
      (by decide) (by decide)).2 (by decide)).1⟩

/-- C4: paying an order twice with the same transaction id succeeds exactly
once: the first settle creates the payment and moves the order to
PROCESSING with payment_status PAID; the replay hits the unique validator
on transaction_id during serializer validation and fails with the
duplicate-transaction error, a rolled-back request that leaves the order
as the first settle wrote it. -/
theorem claim_C4_duplicate_transaction (s : Store) (u oid : Nat)
    (amt amt2 : Int) (tx : String) (ord : Order)
    (hord : getOrder s oid = some ord)
    (hpend : ord.payment_status = .pending)
    (hown : ord.user = u)
    (hfresh : ∀ p ∈ s.payments, p.transaction_id ≠ tx)
    (hone : ∀ p ∈ s.payments, p.order ≠ oid) :
    ∃ s2 pay, settle s u oid amt tx = .ok (s2, pay) ∧
      getOrder s2 oid =
        some { ord with payment_status := .paid, status := .processing } ∧
      settle s2 u oid amt2 tx = .error .duplicateTransaction := by
  refine ⟨_, _, settle_success_spec s u oid amt tx ord hord hfresh hone
    hown hpend, getOrder_after_settle s oid ord hord, ?_⟩
  have hord2 : getOrder
      ({ s with
          payments :=
            ({ id := s.nextId
               order := oid
               amount := amt
               transaction_id := tx
               status := .succeeded } : Payment) :: s.payments
          orders := s.orders.map (fun o =>
            if o.id == oid
            then { o with payment_status := .paid, status := .processing }
            else o)
          nextId := s.nextId + 1 }) oid =
      some { ord with payment_status := .paid, status := .processing } :=
    getOrder_after_settle s oid ord hord
  simp only [settle, hord2, List.any_cons, beq_self_eq_true, Bool.true_or,
    if_true]

/-- Witness for C4: order 50 settles once with transaction id t1, the
replay with t1 is rejected as a duplicate. -/
theorem claim_C4_witness :
    ∃ s2 pay, settle samplePay 7 50 2498 "t1" = .ok (s2, pay) ∧
      getOrder s2 50 = some ⟨50, 7, none, none, .processing, .paid, 2498⟩ ∧
      settle s2 7 50 2498 "t1" = .error .duplicateTransaction :=
  claim_C4_duplicate_transaction samplePay 7 50 2498 2498 "t1"
    ⟨50, 7, none, none, .pending, .pending, 2498⟩
    (by decide) (by decide) (by decide) (by decide) (by decide)

/-- C10: the fallback item.price_at_time or item.product.price tests Python
truthiness, so a non-null snapshot equal to Decimal zero is treated exactly
like an absent snapshot and the line is priced at the product's current
price; only a non-zero snapshot is used as stored.  Both the cart total and
the materialization total price every line through this same expression. -/
theorem claim_C10_zero_snapshot_falls_back (s : Store) (it : CartItem) :
    (it.price_at_time = some 0 → linePrice s it = productPriceOf s it.product) ∧
    (it.price_at_time = none → linePrice s it = productPriceOf s it.product) ∧
    (∀ v, it.price_at_time = some v → v ≠ 0 → linePrice s it = v) ∧
    (∀ cid, get_cart_total s cid =
      ((itemsOf s cid).map (fun x => (x.quantity : Int) * linePrice s x)).sum) ∧
    (∀ its, cfc_total s its =
      (its.map (fun x => (x.quantity : Int) * linePrice s x)).sum) := by
  refine ⟨?_, ?_, ?_, fun cid => rfl, fun its => rfl⟩
  · intro h
    simp [linePrice, h, effectivePrice]
  · intro h
    simp [linePrice, h, effectivePrice]
  · intro v h hv
    rw [linePrice, h, effectivePrice]
    exact if_neg hv

/-- Witness for C10: a line with snapshot 0.00 on a product priced 7.77 is
priced at 7.77, and the cart total counts 3 units at 7.77. -/
theorem claim_C10_witness :
    linePrice sampleZero ⟨30, 20, 1, 3, some 0⟩ =
      productPriceOf sampleZero 1 ∧
    productPriceOf sampleZero 1 = 777 ∧
    get_cart_total sampleZero 20 = 2331 :=
  ⟨(claim_C10_zero_snapshot_falls_back sampleZero ⟨30, 20, 1, 3, some 0⟩).1
      rfl,
   by decide, by decide⟩

/-- C7 evaluated at its failing input: a quantity-only partial update of
cart line 30 (product stock 5) to quantity 10 is accepted by the code — the
serializer stock check is skipped because the partial payload carries no
product field — the line ends at quantity 10 with a refreshed snapshot while
stock is 5; the same request carrying the product field is rejected.  The
repo's own test test_update_cart_item_quantity_not_enough_stock expects the
400 instead. -/
theorem claim_C7_quantity_only_update_bug :
    (setLineQuantity sampleCart 30 10).toOption.map
        (fun s2 => ((getCartItem s2 30).map
          (fun x => (x.quantity, x.price_at_time)), stockOf s2 1))
      = some (some (10, some 1500), 5) ∧
    5 < 10 ∧
    cartItemUpdate sampleCart 30 10 (some 1) = .error .insufficientStock := by
  refine ⟨rfl, by omega, rfl⟩

theorem commitDecrement_cases (st : Int) (q : Nat) :
    (commitDecrement st q = (st, .integrityError) ∧ st - (q : Int) < 0) ∨
    (commitDecrement st q = (st - (q : Int), .committed) ∧
      0 ≤ st - (q : Int)) := by
  unfold commitDecrement
  by_cases h : st - (q : Int) < 0
  · left
    rw [if_pos h]
    exact ⟨rfl, h⟩
  · right
    rw [if_neg h]
    exact ⟨rfl, by omega⟩

theorem runCommits_nonneg_aux :
    ∀ (qs : List Nat) (st : Int) (outs : List TxnOutcome), 0 ≤ st →
      0 ≤ (qs.foldl
        (fun acc q =>
          let r := commitDecrement acc.1 q
          (r.1, acc.2 ++ [r.2])) (st, outs)).1 := by
  intro qs
  induction qs with
  | nil => intro st outs h; exact h
  | cons q rest ih =>
    intro st outs h
    rw [List.foldl_cons]
    exact ih _ _ (by unfold commitDecrement; split <;> omega)

/-- Counterexample to C5 as stated: with stock 1 and two racing checkouts of
one unit each that both pass the advisory check, the loser is rejected by
the store's non-negativity check, but what surfaces is the uncaught
IntegrityError (a generic server error), not the InsufficientStock
response. -/
theorem claim_C5_counterexample :
    raceTwoCheckouts 1 1 1 = (0, .success, .integrityError) ∧
    MatOutcome.integrityError ≠ MatOutcome.insufficientStockResponse := by
  decide

/-- C5 amended: stock_quantity stays non-negative under any serialized
sequence of relative, store-guarded decrements, and in the fully overlapped
two-checkout race the losing transaction is rejected by the commit-time
non-negativity check and rolled back (contributing nothing to the final
stock) — but it surfaces as an uncaught store integrity error rather than
InsufficientStock. -/
theorem claim_C5_amended_nonnegative_stock (stock : Nat) (qs : List Nat)
    (q1 q2 : Nat) :
    0 ≤ (runCommits (stock : Int) qs).1 ∧
    0 ≤ (raceTwoCheckouts stock q1 q2).1 ∧
    ((raceTwoCheckouts stock q1 q2).2.2 = .integrityError →
      (raceTwoCheckouts stock q1 q2).2.1 = .success ∧
      (raceTwoCheckouts stock q1 q2).1 = (stock : Int) - (q1 : Int)) := by
  have hs : 0 ≤ (stock : Int) := Int.natCast_nonneg stock
  refine ⟨runCommits_nonneg_aux qs _ [] hs, ?_, ?_⟩
  · unfold raceTwoCheckouts
    split_ifs with h1 h2 h3
    · exact hs
    · rcases commitDecrement_cases (stock : Int) q2 with ⟨he, hlt⟩ | ⟨he, hge⟩
      · simp [he]
      · simp [he]
        omega
    · rcases commitDecrement_cases (stock : Int) q1 with ⟨he, hlt⟩ | ⟨he, hge⟩
      · simp [he]
      · simp [he]
        omega
    · rcases commitDecrement_cases (stock : Int) q1 with ⟨he, hlt⟩ | ⟨he, hge⟩
      · omega
      · rw [he]
        rcases commitDecrement_cases ((stock : Int) - (q1 : Int)) q2 with
          ⟨he2, hlt2⟩ | ⟨he2, hge2⟩ <;> simp [he2] <;> omega
  · intro h
    by_cases h1 : stock < q1
    · by_cases h2 : stock < q2
      · unfold raceTwoCheckouts at h
        rw [if_pos h1, if_pos h2] at h
        simp at h
      · unfold raceTwoCheckouts at h
        rw [if_pos h1, if_neg h2] at h
        rcases commitDecrement_cases (stock : Int) q2 with ⟨he, hlt⟩ | ⟨he, hge⟩
        · omega
        · rw [he] at h
          simp [matOutcomeOfTxn] at h
    · by_cases h2 : stock < q2
      · unfold raceTwoCheckouts at h
        rw [if_neg h1, if_pos h2] at h
        simp at h
      · rcases commitDecrement_cases (stock : Int) q1 with ⟨he1, hlt1⟩ | ⟨he1, hge1⟩
        · omega
        · rcases commitDecrement_cases ((stock : Int) - (q1 : Int)) q2 with
            ⟨he2, hlt2⟩ | ⟨he2, hge2⟩
          · unfold raceTwoCheckouts
            rw [if_neg h1, if_neg h2]
            simp [he1, he2, matOutcomeOfTxn]
          · unfold raceTwoCheckouts at h
            rw [if_neg h1, if_neg h2] at h
            simp [he1, he2, matOutcomeOfTxn] at h

/-- Witness for C5 amended: stock 1, two one-unit checkouts; the winner
succeeds, the final stock is 0, never negative. -/
theorem claim_C5_witness :
    0 ≤ (runCommits ((1 : Nat) : Int) [1, 1]).1 ∧
    0 ≤ (raceTwoCheckouts 1 1 1).1 ∧
    ((raceTwoCheckouts 1 1 1).2.1 = .success ∧
      (raceTwoCheckouts 1 1 1).1 = ((1 : Nat) : Int) - ((1 : Nat) : Int)) :=
  ⟨(claim_C5_amended_nonnegative_stock 1 [1, 1] 1 1).1,
   (claim_C5_amended_nonnegative_stock 1 [1, 1] 1 1).2.1,
   (claim_C5_amended_nonnegative_stock 1 [1, 1] 1 1).2.2 (by decide)⟩

/-- C6: adding a product to the cart increments the existing line for that
product (refreshing its price snapshot to the current product price) rather
than creating a duplicate, or creates a fresh line snapshotted at the
current price; in either case the request fails with the insufficient-stock
error — leaving the store untouched — when the resulting quantity exceeds
the product's current stock. -/
theorem claim_C6_add_or_increment (s : Store) (u pid q : Nat) (prod : Product)
    (c : Cart)
    (hq : 1 ≤ q)
    (hp : getProduct s pid = some prod)
    (hc : activeCart s u = some c) :
    (∀ it, s.cartItems.find?
        (fun x => x.cart == c.id && x.product == pid) = some it →
      (prod.stock_quantity < it.quantity + q →
        addOrIncrementLine s u pid q = .error .insufficientStock) ∧
      (it.quantity + q ≤ prod.stock_quantity →
        addOrIncrementLine s u pid q = .ok { s with
          cartItems := s.cartItems.map (fun x =>
            if x.id == it.id
            then { x with
                    quantity := it.quantity + q
                    price_at_time := some prod.price }
            else x) } ∧
        { it with
          quantity := it.quantity + q
          price_at_time := some prod.price } ∈ s.cartItems.map (fun x =>
            if x.id == it.id
            then { x with
                    quantity := it.quantity + q
                    price_at_time := some prod.price }
            else x) ∧
        (s.cartItems.map (fun x =>
            if x.id == it.id
            then { x with
                    quantity := it.quantity + q
                    price_at_time := some prod.price }
            else x)).length = s.cartItems.length)) ∧
    (s.cartItems.find? (fun x => x.cart == c.id && x.product == pid) = none →
      (prod.stock_quantity < q →
        addOrIncrementLine s u pid q = .error .insufficientStock) ∧
      (q ≤ prod.stock_quantity →
        addOrIncrementLine s u pid q = .ok { s with
          cartItems :=
            ({ id := s.nextId
               cart := c.id
               product := pid
               quantity := q
               price_at_time := some prod.price } : CartItem) :: s.cartItems
          nextId := s.nextId + 1 })) := by
  have hq1 : ¬ (q < 1) := by omega
  constructor
  · intro it hfind
    constructor
    · intro hbig
      by_cases hv : prod.stock_quantity < q
      · simp only [addOrIncrementLine, if_neg hq1, hp, if_pos hv]
      · simp only [addOrIncrementLine, if_neg hq1, hp, if_neg hv, hc, hfind,
          if_pos hbig]
    · intro hfits
      have hv : ¬ (prod.stock_quantity < q) := by omega
      have hnew : ¬ (prod.stock_quantity < it.quantity + q) := by omega
      refine ⟨?_, ?_, List.length_map _ _⟩
      · simp only [addOrIncrementLine, if_neg hq1, hp, if_neg hv, hc, hfind,
          if_neg hnew]
      · exact List.mem_map.mpr
          ⟨it, List.mem_of_find?_eq_some hfind, by simp⟩
  · intro hfind
    constructor
    · intro hv
      simp only [addOrIncrementLine, if_neg hq1, hp, if_pos hv]
    · intro hok
      have hv : ¬ (prod.stock_quantity < q) := by omega
      simp only [addOrIncrementLine, if_neg hq1, hp, if_neg hv, hc, hfind]

/-- Witness for C6: adding 2 more units of product 1 to the existing line
(2 units, snapshot 14.00) yields one line of 4 units snapshotted at the
current 15.00; adding 4 more is rejected for stock; both at sampleCart. -/
theorem claim_C6_witness :
    addOrIncrementLine sampleCart 7 1 4 = .error .insufficientStock ∧
    (addOrIncrementLine sampleCart 7 1 2 = .ok { sampleCart with
      cartItems := sampleCart.cartItems.map (fun x =>
        if x.id == 30
        then { x with quantity := 4, price_at_time := some 1500 }
        else x) } ∧
    ({ id := 30, cart := 20, product := 1, quantity := 4,
       price_at_time := some 1500 } : CartItem) ∈ sampleCart.cartItems.map
        (fun x =>
          if x.id == 30
          then { x with quantity := 4, price_at_time := some 1500 }
          else x) ∧
    (sampleCart.cartItems.map (fun x =>
        if x.id == 30
        then { x with quantity := 4, price_at_time := some 1500 }
        else x)).length = sampleCart.cartItems.length) :=
  ⟨((claim_C6_add_or_increment sampleCart 7 1 4 ⟨1, "P", 1500, 5⟩
      ⟨20, 7, true⟩ (by decide) (by decide) (by decide)).1
      ⟨30, 20, 1, 2, some 1400⟩ (by decide)).1 (by decide),
   ((claim_C6_add_or_increment sampleCart 7 1 2 ⟨1, "P", 1500, 5⟩
      ⟨20, 7, true⟩ (by decide) (by decide) (by decide)).1
      ⟨30, 20, 1, 2, some 1400⟩ (by decide)).2 (by decide)⟩

theorem cfc_ok_frame (s : Store) (u : Nat) (b sh : Option Nat) (st : Store)
    (ord : Order) (h : create_from_cart s u b sh = .ok (st, ord)) :
    st.orders = ord :: s.orders ∧ ord.status = .pending ∧
    st.payments = s.payments := by
  unfold create_from_cart at h
  cases hac : activeCart s u with
  | none => rw [hac] at h; cases h
  | some c =>
    rw [hac] at h
    simp only [] at h
    by_cases hie : (itemsOf s c.id).isEmpty
    · rw [if_pos hie] at h; cases h
    · rw [if_neg hie] at h
      cases b with
      | none => cases h
      | some bid =>
        simp only [] at h
        cases hfb : findAddress s bid u with
        | none => rw [hfb] at h; cases h
        | some billing =>
          rw [hfb] at h
          simp only [] at h
          cases sh with
          | none =>
            simp only [] at h
            by_cases hbr :
                (!(itemsOf s c.id).all fun it => (getProduct s it.product).isSome) = true
            · rw [if_pos hbr] at h; cases h
            · rw [if_neg hbr] at h
              by_cases hin :
                  (!(insufficientReport s (itemsOf s c.id)).isEmpty) = true
              · rw [if_pos hin] at h; cases h
              · rw [if_neg hin] at h
                injection h with h1
                injection h1 with ha hb
                subst ha; subst hb
                exact ⟨rfl, rfl, rfl⟩
          | some sid =>
            simp only [] at h
            cases hfs : findAddress s sid u with
            | none => rw [hfs] at h; cases h
            | some a =>
              rw [hfs] at h
              simp only [] at h
              by_cases hbr :
                  (!(itemsOf s c.id).all fun it => (getProduct s it.product).isSome) = true
              · rw [if_pos hbr] at h; cases h
              · rw [if_neg hbr] at h
                by_cases hin :
                    (!(insufficientReport s (itemsOf s c.id)).isEmpty) = true
                · rw [if_pos hin] at h; cases h
                · rw [if_neg hin] at h
                  injection h with h1
                  injection h1 with ha hb
                  subst ha; subst hb
                  exact ⟨rfl, rfl, rfl⟩

theorem settle_ok_frame (s : Store) (u oid : Nat) (amt : Int) (tx : String)
    (st : Store) (pay : Payment)
    (h : settle s u oid amt tx = .ok (st, pay)) :
    st.orders = s.orders.map (fun o =>
      if o.id == oid
      then { o with payment_status := .paid, status := .processing }
      else o) ∧
    st.payments = pay :: s.payments ∧ pay.order = oid ∧
    pay.status = .succeeded := by
  unfold settle at h
  cases hor : getOrder s oid with
  | none => rw [hor] at h; cases h
  | some ord =>
    rw [hor] at h
    simp only [] at h
    by_cases h1 : s.payments.any (fun p => p.transaction_id == tx) = true
    · rw [if_pos h1] at h; cases h
    · rw [if_neg h1] at h
      by_cases h2 : s.payments.any (fun p => p.order == oid) = true
      · rw [if_pos h2] at h; cases h
      · rw [if_neg h2] at h
        by_cases h3 : ord.user ≠ u
        · rw [if_pos h3] at h; cases h
        · rw [if_neg h3] at h
          by_cases h4 : ord.payment_status ≠ .pending
          · rw [if_pos h4] at h; cases h
          · rw [if_neg h4] at h
            injection h with h5
            injection h5 with ha hb
            subst ha; subst hb
            exact ⟨rfl, rfl, rfl, rfl⟩

theorem aoil_ok_frame (s : Store) (u pid q : Nat) (st : Store)
    (h : addOrIncrementLine s u pid q = .ok st) :
    st.orders = s.orders ∧ st.payments = s.payments := by
  unfold addOrIncrementLine at h
  by_cases h1 : q < 1
  · rw [if_pos h1] at h; cases h
  · rw [if_neg h1] at h
    cases hp : getProduct s pid with
    | none => rw [hp] at h; cases h
    | some prod =>
      rw [hp] at h
      simp only [] at h
      by_cases h2 : prod.stock_quantity < q
      · rw [if_pos h2] at h; cases h
      · rw [if_neg h2] at h
        cases hac : activeCart s u with
        | some c =>
          rw [hac] at h
          simp only [] at h
          cases hf : s.cartItems.find?
              (fun it => it.cart == c.id && it.product == pid) with
          | some itm =>
            rw [hf] at h
            simp only [] at h
            by_cases h3 : prod.stock_quantity < itm.quantity + q
            · rw [if_pos h3] at h; cases h
            · rw [if_neg h3] at h
              injection h with h4
              subst h4
              exact ⟨rfl, rfl⟩
          | none =>
            rw [hf] at h
            simp only [] at h
            by_cases h3 : prod.stock_quantity < q
            · rw [if_pos h3] at h; cases h
            · rw [if_neg h3] at h
              injection h with h4
              subst h4
              exact ⟨rfl, rfl⟩
        | none =>
          rw [hac] at h
          simp only [] at h
          cases hf : s.cartItems.find?
              (fun it => it.cart == s.nextId && it.product == pid) with
          | some itm =>
            rw [hf] at h
            simp only [] at h
            by_cases h3 : prod.stock_quantity < itm.quantity + q
            · rw [if_pos h3] at h; cases h
            · rw [if_neg h3] at h
              injection h with h4
              subst h4
              exact ⟨rfl, rfl⟩
          | none =>
            rw [hf] at h
            simp only [] at h
            by_cases h3 : prod.stock_quantity < q
            · rw [if_pos h3] at h; cases h
            · rw [if_neg h3] at h
              injection h with h4
              subst h4
              exact ⟨rfl, rfl⟩

theorem ciu_ok_frame (s : Store) (iid q : Nat) (pArg : Option Nat) (st : Store)
    (h : cartItemUpdate s iid q pArg = .ok st) :
    st.orders = s.orders ∧ st.payments = s.payments := by
  unfold cartItemUpdate at h
  by_cases h1 : q < 1
  · rw [if_pos h1] at h; cases h
  · rw [if_neg h1] at h
    cases hit : getCartItem s iid with
    | none => rw [hit] at h; cases h
    | some itm =>
      rw [hit] at h
      simp only [] at h
      cases pArg with
      | some pid0 =>
        simp only [] at h
        cases hp : getProduct s pid0 with
        | none => rw [hp] at h; cases h
        | some prod =>
          rw [hp] at h
          simp only [] at h
          by_cases h2 : prod.stock_quantity < q
          · rw [if_pos h2] at h; cases h
          · rw [if_neg h2] at h
            injection h with h3
            subst h3
            exact ⟨rfl, rfl⟩
      | none =>
        simp only [] at h
        cases hp : getProduct s itm.product with
        | none => rw [hp] at h; cases h
        | some prod =>
          rw [hp] at h
          simp only [] at h
          injection h with h3
          subst h3
          exact ⟨rfl, rfl⟩

/-- C9: across every write operation of the exposed REST surface, an order
reaches status PROCESSING only through payment creation: each step preserves
the invariant that every PROCESSING order has a recorded SUCCEEDED payment,
and any step that newly puts an order into PROCESSING is a paymentCreate. -/
theorem claim_C9_processing_only_via_settlement (s : Store) (op : ApiOp)
    (s2 : Store) (h : apiStep s op = some s2) :
    (invProcessingPaid s → invProcessingPaid s2) ∧
    (∀ o2 ∈ s2.orders, o2.status = .processing →
      (∃ o ∈ s.orders, o.id = o2.id ∧ o.status = .processing) ∨
      (∃ u oid amt tx, op = ApiOp.paymentCreate u oid amt tx)) := by
  cases op with
  | cartCreateFromCart u b sh =>
    simp only [apiStep] at h
    cases hr : create_from_cart s u b sh with
    | error e =>
      rw [hr] at h
      simp [Except.map, Except.toOption] at h
    | ok pr =>
      obtain ⟨st, ord⟩ := pr
      rw [hr] at h
      simp only [Except.map, Except.toOption, Option.some.injEq] at h
      subst h
      obtain ⟨ho, hstat, hpays⟩ := cfc_ok_frame s u b sh st ord hr
      constructor
      · intro hinv o2 ho2 hproc
        rw [ho] at ho2
        rcases List.mem_cons.mp ho2 with rfl | hmem
        · rw [hstat] at hproc; cases hproc
        · obtain ⟨p, hp, hpo, hps⟩ := hinv o2 hmem hproc
          exact ⟨p, by rw [hpays]; exact hp, hpo, hps⟩
      · intro o2 ho2 hproc
        rw [ho] at ho2
        rcases List.mem_cons.mp ho2 with rfl | hmem
        · rw [hstat] at hproc; cases hproc
        · exact Or.inl ⟨o2, hmem, rfl, hproc⟩
  | paymentCreate u oid amt tx =>
    simp only [apiStep] at h
    cases hr : settle s u oid amt tx with
    | error e =>
      rw [hr] at h
      simp [Except.map, Except.toOption] at h
    | ok pr =>
      obtain ⟨st, pay⟩ := pr
      rw [hr] at h
      simp only [Except.map, Except.toOption, Option.some.injEq] at h
      subst h
      obtain ⟨ho, hpays, hpo, hps⟩ := settle_ok_frame s u oid amt tx st pay hr
      refine ⟨?_, fun o2 ho2 hproc => Or.inr ⟨u, oid, amt, tx, rfl⟩⟩
      intro hinv o2 ho2 hproc
      rw [ho] at ho2
      rw [List.mem_map] at ho2
      obtain ⟨o, hom, rfl⟩ := ho2
      by_cases hid : (o.id == oid) = true
      · have hoid : o.id = oid := by simpa using hid
        refine ⟨pay, by rw [hpays]; exact List.mem_cons_self _ _, ?_, hps⟩
        rw [hpo, if_pos hid]
        exact hoid.symm
      · rw [if_neg hid] at hproc ⊢
        obtain ⟨p, hp, hpo2, hps2⟩ := hinv o hom hproc
        exact ⟨p, by rw [hpays]; exact List.mem_cons_of_mem _ hp, hpo2, hps2⟩
  | orderCreate u sh b => cases h
  | paymentMutate u pidp => cases h
  | orderUpdate u oid sh b =>
    simp only [apiStep] at h
    cases hor : getOrder s oid with
    | none => rw [hor] at h; cases h
    | some ord =>
      rw [hor] at h
      simp only [] at h
      by_cases hu : ord.user ≠ u
      · rw [if_pos hu] at h; cases h
      · rw [if_neg hu] at h
        simp only [Option.some.injEq] at h
        subst h
        constructor
        · intro hinv o2 ho2 hproc
          rw [List.mem_map] at ho2
          obtain ⟨o, hom, rfl⟩ := ho2
          by_cases hid : (o.id == oid) = true
          · rw [if_pos hid] at hproc ⊢
            obtain ⟨p, hp, hpo, hps⟩ := hinv o hom hproc
            exact ⟨p, hp, hpo, hps⟩
          · rw [if_neg hid] at hproc ⊢
            exact hinv o hom hproc
        · intro o2 ho2 hproc
          rw [List.mem_map] at ho2
          obtain ⟨o, hom, rfl⟩ := ho2
          by_cases hid : (o.id == oid) = true
          · rw [if_pos hid] at hproc ⊢
            exact Or.inl ⟨o, hom, rfl, hproc⟩
          · rw [if_neg hid] at hproc ⊢
            exact Or.inl ⟨o, hom, rfl, hproc⟩
  | orderDestroy u oid =>
    simp only [apiStep] at h
    cases hor : getOrder s oid with
    | none => rw [hor] at h; cases h
    | some ord =>
      rw [hor] at h
      simp only [] at h
      by_cases hu : ord.user ≠ u
      · rw [if_pos hu] at h; cases h
      · rw [if_neg hu] at h
        simp only [Option.some.injEq] at h
        subst h
        constructor
        · intro hinv o2 ho2 hproc
          obtain ⟨hmem, hkeep⟩ := List.mem_filter.mp ho2
          obtain ⟨p, hp, hpo, hps⟩ := hinv o2 hmem hproc
          refine ⟨p, List.mem_filter.mpr ⟨hp, ?_⟩, hpo, hps⟩
          simp only [Bool.not_eq_true'] at hkeep ⊢
          rw [hpo]
          exact hkeep
        · intro o2 ho2 hproc
          exact Or.inl ⟨o2, (List.mem_filter.mp ho2).1, rfl, hproc⟩
  | cartItemCreate u pid0 q0 =>
    simp only [apiStep] at h
    cases hr : addOrIncrementLine s u pid0 q0 with
    | error e =>
      rw [hr] at h
      simp [Except.map, Except.toOption] at h
    | ok st =>
      rw [hr] at h
      simp only [Except.toOption, Option.some.injEq] at h
      subst h
      obtain ⟨ho, hp⟩ := aoil_ok_frame s u pid0 q0 st hr
      constructor
      · intro hinv o2 ho2 hproc
        rw [ho] at ho2
        rw [hp]
        exact hinv o2 ho2 hproc
      · intro o2 ho2 hproc
        rw [ho] at ho2
        exact Or.inl ⟨o2, ho2, rfl, hproc⟩
  | cartItemPatch u iid q0 pArg =>
    simp only [apiStep] at h
    cases hr : cartItemUpdate s iid q0 pArg with
    | error e =>
      rw [hr] at h
      simp [Except.map, Except.toOption] at h
    | ok st =>
      rw [hr] at h
      simp only [Except.toOption, Option.some.injEq] at h
      subst h
      obtain ⟨ho, hp⟩ := ciu_ok_frame s iid q0 pArg st hr
      constructor
      · intro hinv o2 ho2 hproc
        rw [ho] at ho2
        rw [hp]
        exact hinv o2 ho2 hproc
      · intro o2 ho2 hproc
        rw [ho] at ho2
        exact Or.inl ⟨o2, ho2, rfl, hproc⟩
  | cartItemDestroy u iid =>
    simp only [apiStep] at h
    cases hit : getCartItem s iid with
    | none => rw [hit] at h; cases h
    | some itm =>
      rw [hit] at h
      simp only [Option.some.injEq] at h
      subst h
      constructor
      · intro hinv o2 ho2 hproc
        exact hinv o2 ho2 hproc
      · intro o2 ho2 hproc
        exact Or.inl ⟨o2, ho2, rfl, hproc⟩

/-- Witness for C9: paying order 50 on samplePay yields a state where the
processing order is covered by the recorded succeeded payment. -/
theorem claim_C9_witness :
    invProcessingPaid
      ({ products := []
         addresses := []
         carts := []
         cartItems := []
         orders := [⟨50, 7, none, none, .processing, .paid, 2498⟩]
         orderItems := []
         payments := [⟨100, 50, 2498, "t1", .succeeded⟩]
         nextId := 101 } : Store) :=
  (claim_C9_processing_only_via_settlement samplePay
    (.paymentCreate 7 50 2498 "t1")
    ({ products := []
       addresses := []
       carts := []
       cartItems := []
       orders := [⟨50, 7, none, none, .processing, .paid, 2498⟩]
       orderItems := []
       payments := [⟨100, 50, 2498, "t1", .succeeded⟩]
       nextId := 101 } : Store)
    (by decide)).1 (by decide)

end Nexus
